import Mathlib

/-!
# Verification of the Zika prediction orchestrator

Shallow embedding of the retry/fallback prediction orchestration found in
the zika route module (`makeRequestWithRetry`, the `POST /predict` handler,
`savePredictionRecord`, and the local fallback scorer
`generateLocalPrediction`).

Modelling conventions:
* JavaScript strings are Lean `String`; `toLowerCase`/`toUpperCase` map
  `Char.toLower`/`Char.toUpper` over the characters, and `includes` is an
  executable substring check.
* Optional request fields are `Option` values; JavaScript falsiness on the
  types appearing here (`undefined`/`null`/`0` for numbers, `undefined`/`''`
  for strings) is made explicit by `jsFalsy` helpers.
* The remote AI service is abstracted by an oracle `Nat → AttemptResult`
  giving the outcome of each attempt of the (fixed) request; the retry loop
  additionally records, per attempt, the delay it sleeps afterwards, so that
  backoff claims are statable.
* Confidence values are exact rationals (`ℚ`).
-/

namespace ZikaBackend

/-! ## String helpers (JavaScript `toLowerCase`, `toUpperCase`, `includes`) -/

/-- `charsStartsWith s sub` is true iff `sub` is a prefix of `s`. -/
def charsStartsWith : List Char → List Char → Bool
  | _, [] => true
  | [], _ :: _ => false
  | c :: cs, d :: ds => c == d && charsStartsWith cs ds

/-- `charsContain s sub` is true iff `sub` occurs contiguously inside `s`. -/
def charsContain : List Char → List Char → Bool
  | [], sub => charsStartsWith [] sub
  | c :: cs, sub => charsStartsWith (c :: cs) sub || charsContain cs sub

/-- JavaScript `s.includes(sub)`. -/
def strIncludes (s sub : String) : Bool :=
  charsContain s.data sub.data

/-- JavaScript `s.toLowerCase()` (ASCII, as used by the route module). -/
def strToLower (s : String) : String :=
  String.mk (s.data.map Char.toLower)

/-- JavaScript `s.toUpperCase()` (ASCII, as used by the route module). -/
def strToUpper (s : String) : String :=
  String.mk (s.data.map Char.toUpper)

/-! ## JavaScript falsiness and `||` defaults, restricted to the types used -/

/-- `!age` for an optional integer field: missing, `null` and `0` are falsy. -/
def jsFalsyInt (v : Option Int) : Bool :=
  match v with
  | none => true
  | some n => n == 0

/-- `!sex` for an optional string field: missing, `null` and `''` are falsy. -/
def jsFalsyStr (v : Option String) : Bool :=
  match v with
  | none => true
  | some s => s == ""

/-- JavaScript `v || d` for an optional string. -/
def jsOrStr (v : Option String) (d : String) : String :=
  match v with
  | none => d
  | some s => if s == "" then d else s

/-- JavaScript `v || d` for an optional rational (`0` is falsy). -/
def jsOrQ (v : Option ℚ) (d : ℚ) : ℚ :=
  match v with
  | none => d
  | some c => if c == 0 then d else c

/-! ## The local fallback scorer `generateLocalPrediction` -/

/-- The fixed high-risk region keyword list from `generateLocalPrediction`. -/
def highRiskAreas : List String :=
  ["brazil", "mexico", "colombia", "venezuela", "thailand", "philippines"]

/-- The risk-score accumulation of `generateLocalPrediction`, transcribed
step by step from the sequential `riskScore += …` statements. -/
def riskScore (age : Int) (sex : String) (travelHistory : Option String) : Nat :=
  let travelStr := strToLower (travelHistory.getD "")
  let score0 : Nat := 0
  let score1 := if 50 < age then score0 + 2 else if 30 < age then score0 + 1 else score0
  let score2 := if strToUpper sex = "F" then score1 + 1 else score1
  let hasHighRisk := highRiskAreas.any (fun area => strIncludes travelStr area)
  let score3 :=
    if hasHighRisk then score2 + 3
    else if strIncludes travelStr "travel" || strIncludes travelStr "abroad" then score2 + 1
    else score2
  score3

/-- The `factors_considered` object attached to a fallback prediction. -/
structure FactorsConsidered where
  age : Int
  sex : String
  travel_history : String
  calculated_risk_score : Nat
deriving DecidableEq, Repr

/-- A prediction object (`risk_level` / `confidence` / `recommendation`,
plus the extra fields a fallback prediction carries). -/
structure Prediction where
  risk_level : String
  confidence : ℚ
  recommendation : String
  factors_considered : Option FactorsConsidered
  source : Option String
deriving DecidableEq, Repr

/-- `generateLocalPrediction(age, sex, travelHistory)`. -/
def generateLocalPrediction (age : Int) (sex : String) (travelHistory : Option String) :
    Prediction :=
  let score := riskScore age sex travelHistory
  let tier : String × ℚ × String :=
    if score ≥ 4 then
      ("HIGH RISK", 0.85,
        "Immediate medical consultation recommended. Monitor for symptoms and avoid mosquito exposure.")
    else if score ≥ 2 then
      ("MODERATE RISK", 0.65,
        "Schedule medical checkup. Use mosquito repellent and wear protective clothing.")
    else
      ("LOW RISK", 0.90,
        "Low probability of Zika infection. Maintain standard mosquito precautions.")
  { risk_level := tier.1
    confidence := tier.2.1
    recommendation := tier.2.2
    factors_considered := some
      { age := age
        sex := sex
        travel_history := jsOrStr travelHistory "None"
        calculated_risk_score := score }
    source := some "local_fallback_algorithm" }

/-! ## The retry helper `makeRequestWithRetry` -/

/-- Retry configuration constants of the route module. -/
def MAX_RETRIES : Nat := 3

/-- `RETRY_DELAY = 2000` milliseconds. -/
def RETRY_DELAY : Nat := 2000

/-- The observable shape of an axios error as used by the module:
`error.response?.status`, the parsed `retry-after` header,
whether `error.response.data` is a string containing `<!DOCTYPE html>`,
and `error.code`. -/
structure JsError where
  status : Option Nat
  retryAfter : Option Nat
  bodyIsHtml : Bool
  code : Option String
deriving DecidableEq, Repr

/-- Body fields the handler inspects on a successful AI response
(the known envelopes of lines 141-154 of the route module). -/
structure AIResponseData where
  ai_prediction : Option Prediction
  prediction : Option Prediction
  risk_level : Option String
  confidence : Option ℚ
  recommendation : Option String
deriving DecidableEq, Repr

/-- Outcome of one `axios.post` attempt (the remote service is abstracted
as an oracle from the attempt index to this type; the url and payload are
fixed across attempts, so the oracle models retrying the same request). -/
inductive AttemptResult where
  | ok (data : AIResponseData)
  | fail (e : JsError)
deriving DecidableEq, Repr

/-- How `makeRequestWithRetry` terminates: a resolved value, an error
thrown from the last attempt, or falling off the loop (the JavaScript
function then implicitly resolves to `undefined`). -/
inductive RetryResult where
  | resolved (data : AIResponseData)
  | thrown (e : JsError)
  | resolvedUndefined
deriving DecidableEq, Repr

/-- One executed attempt, together with the delay (in milliseconds) the
loop sleeps after it, if any. -/
structure AttemptTrace where
  outcome : AttemptResult
  waitAfter : Option Nat
deriving DecidableEq, Repr

/-- The `for (let i = 0; i < retries; i++)` loop body of
`makeRequestWithRetry`, with `fuel = retries - i` making the iteration
count structural. On a 429 the loop always sleeps and continues (also on
the last attempt); a non-429 error is rethrown on the last attempt and
otherwise waited out with the fixed `RETRY_DELAY`. -/
def retryLoop (oracle : Nat → AttemptResult) (retries : Nat) :
    Nat → Nat → RetryResult × List AttemptTrace
  | _, 0 => (.resolvedUndefined, [])
  | i, fuel + 1 =>
    match oracle i with
    | .ok data => (.resolved data, [⟨.ok data, none⟩])
    | .fail e =>
      if e.status = some 429 then
        let waitTime :=
          match e.retryAfter with
          | some r => r * 1000
          | none => RETRY_DELAY * (i + 1)
        let rest := retryLoop oracle retries (i + 1) fuel
        (rest.1, ⟨.fail e, some waitTime⟩ :: rest.2)
      else if i = retries - 1 then
        (.thrown e, [⟨.fail e, none⟩])
      else
        let rest := retryLoop oracle retries (i + 1) fuel
        (rest.1, ⟨.fail e, some RETRY_DELAY⟩ :: rest.2)

/-- `makeRequestWithRetry(url, data, retries)`: run the loop from `i = 0`.
The result is paired with the trace of attempts and waits. -/
def makeRequestWithRetry (oracle : Nat → AttemptResult) (retries : Nat) :
    RetryResult × List AttemptTrace :=
  retryLoop oracle retries 0 retries

/-! ## Response normalization (lines 141-154) -/

/-- The value bound to `prediction` in the handler: either a structured
prediction object or, in the last normalization case, the raw AI response
passed through unchanged. -/
inductive PredValue where
  | structured (p : Prediction)
  | raw (r : AIResponseData)
deriving DecidableEq, Repr

/-- The `if/else if` chain normalizing the AI response envelope. -/
def normalizeAIResponse (r : AIResponseData) : PredValue :=
  match r.ai_prediction with
  | some p => .structured p
  | none =>
    match r.prediction with
    | some p => .structured p
    | none =>
      match r.risk_level with
      | some rl => .structured
          { risk_level := rl
            confidence := jsOrQ r.confidence 0.8
            recommendation := jsOrStr r.recommendation "Consult with healthcare provider"
            factors_considered := none
            source := none }
      | none => .raw r

/-! ## Persistence: `savePredictionRecord` -/

/-- A `Patient` document. -/
structure PatientRec where
  patientId : Option String
  age : Int
  sex : String
deriving Repr

/-- A `ClinicalRecord` document as built by `savePredictionRecord`. -/
structure SavedRecord where
  patientId : Option String
  age : Int
  sex : String
  travelHistory : String
  prediction : PredValue
  predictedBy : String
  source : String
deriving Repr

/-- The database collaborator: each Mongoose call either succeeds or
throws (`Except.error`). -/
structure DbEnv where
  findPatient : Option String → Except String (Option PatientRec)
  savePatient : PatientRec → Except String Unit
  saveRecord : SavedRecord → Except String Unit

/-- The data object the handler passes to `savePredictionRecord`. -/
structure RecordData where
  patientId : Option String
  age : Int
  sex : String
  travel_history : Option String
  prediction : PredValue
  isFallback : Bool

/-- The body of `savePredictionRecord`'s `try` block: look up the patient,
lazily create it, then save the clinical record. Any step may throw. -/
def savePredictionRecordTry (env : DbEnv) (userId : String) (d : RecordData) :
    Except String SavedRecord := do
  let existing ← env.findPatient d.patientId
  let patient ←
    match existing with
    | some p => Except.ok p
    | none => do
        let p : PatientRec := { patientId := d.patientId, age := d.age, sex := strToUpper d.sex }
        let _ ← env.savePatient p
        Except.ok p
  let record : SavedRecord :=
    { patientId := d.patientId
      age := d.age
      sex := strToUpper d.sex
      travelHistory := jsOrStr d.travel_history "No"
      prediction := d.prediction
      predictedBy := userId
      source := if d.isFallback then "local_fallback" else "ai_server" }
  let _ := patient
  let _ ← env.saveRecord record
  Except.ok record

/-- `savePredictionRecord`: the `try` body wrapped in the function's own
`catch`, which logs and swallows the error (the comment in the source:
"Don't throw, as saving shouldn't fail the whole prediction"), so the
function always resolves - to the record on success and to `undefined`
(`none`) on a persistence failure. -/
def savePredictionRecord (env : DbEnv) (userId : String) (d : RecordData) :
    Option SavedRecord :=
  match savePredictionRecordTry env userId d with
  | .ok r => some r
  | .error _ => none

/-! ## The `POST /predict` handler -/

/-- The request body fields the handler destructures, plus `req.user.id`
provided by the auth middleware. -/
structure PredictRequest where
  patientId : Option String
  age : Option Int
  sex : Option String
  travel_history : Option String
  userId : String

/-- The `patient` echo object in success responses. -/
structure PatientEcho where
  patientId : Option String
  age : Int
  sex : String
deriving DecidableEq, Repr

/-- The JSON response of the handler, restricted to the fields it sets
(absent fields are `none`). `process.env.NODE_ENV` is taken as production,
so the outer catch's development-only `error` detail is absent. -/
structure HttpResponse where
  status : Nat
  success : Bool
  message : String
  errorTag : Option String
  retryAfter : Option Nat
  ai_prediction : Option PredValue
  fallback : Option Bool
  note : Option String
  patientEcho : Option PatientEcho
deriving DecidableEq, Repr

/-- The `POST /predict` handler. Returns the response together with the
attempt trace ( `[]` iff no remote call was made). The
`RetryResult.resolvedUndefined` case models the JavaScript control flow
faithfully: `makeRequestWithRetry` resolved to `undefined`, so the
handler's subsequent `aiResponse.ai_prediction` dereference throws a
`TypeError`, which the outer catch maps (no `response`, no `code`) to a
500 "Failed to process prediction" response. -/
def predictHandler (req : PredictRequest) (oracle : Nat → AttemptResult) (env : DbEnv) :
    HttpResponse × List AttemptTrace :=
  if jsFalsyInt req.age || jsFalsyStr req.sex then
    ({ status := 400
       success := false
       message := "Age and sex are required fields"
       errorTag := none, retryAfter := none, ai_prediction := none
       fallback := none, note := none, patientEcho := none }, [])
  else
    let age := req.age.getD 0
    let sex := req.sex.getD ""
    let result := makeRequestWithRetry oracle MAX_RETRIES
    match result.1 with
    | .resolved data =>
      let prediction := normalizeAIResponse data
      let _saved := savePredictionRecord env req.userId
        { patientId := req.patientId, age := age, sex := sex
          travel_history := req.travel_history, prediction := prediction, isFallback := false }
      ({ status := 200
         success := true
         message := "Risk assessment completed"
         errorTag := none, retryAfter := none
         ai_prediction := some prediction
         fallback := some false
         note := none
         patientEcho := some { patientId := req.patientId, age := age, sex := sex } }, result.2)
    | .thrown e =>
      if e.status = some 429 ∧ e.bodyIsHtml then
        ({ status := 429
           success := false
           message := "AI server is currently under heavy load. Please try again in a few minutes."
           errorTag := some "rate_limit_cloudflare"
           retryAfter := some 60
           ai_prediction := none, fallback := none, note := none, patientEcho := none }, result.2)
      else
        let fallbackPrediction := PredValue.structured (generateLocalPrediction age sex req.travel_history)
        let _saved := savePredictionRecord env req.userId
          { patientId := req.patientId, age := age, sex := sex
            travel_history := req.travel_history, prediction := fallbackPrediction, isFallback := true }
        ({ status := 200
           success := true
           message := "Risk assessment completed (local fallback)"
           errorTag := none, retryAfter := none
           ai_prediction := some fallbackPrediction
           fallback := some true
           note := some "AI server unavailable, using local assessment"
           patientEcho := some { patientId := req.patientId, age := age, sex := sex } }, result.2)
    | .resolvedUndefined =>
      ({ status := 500
         success := false
         message := "Failed to process prediction"
         errorTag := none, retryAfter := none, ai_prediction := none
         fallback := none, note := none, patientEcho := none }, result.2)

/-! ## Spec-side decompositions and helper lemmas -/

/-- Spec-side age contribution: age > 50 gives +2, age in (30,50] gives +1. -/
def ageComponent (age : Int) : Nat :=
  if 50 < age then 2 else if 30 < age then 1 else 0

/-- Spec-side sex contribution: female (case-insensitive `F`) gives +1. -/
def sexComponent (sex : String) : Nat :=
  if strToUpper sex = "F" then 1 else 0

/-- The high-risk travel test of the scorer, as a standalone predicate. -/
def hasHighRiskTravel (travelHistory : Option String) : Bool :=
  highRiskAreas.any (fun area => strIncludes (strToLower (travelHistory.getD "")) area)

/-- Spec-side travel contribution: a high-risk region keyword gives +3,
otherwise a generic travel/abroad keyword gives +1, otherwise 0. -/
def travelComponent (travelHistory : Option String) : Nat :=
  let travelStr := strToLower (travelHistory.getD "")
  if hasHighRiskTravel travelHistory then 3
  else if strIncludes travelStr "travel" || strIncludes travelStr "abroad" then 1
  else 0

/-- The sequentially accumulated risk score is the sum of the three
independent spec-side contributions. -/
theorem riskScore_eq_components (age : Int) (sex : String) (th : Option String) :
    riskScore age sex th = ageComponent age + sexComponent sex + travelComponent th := by
  simp only [riskScore, ageComponent, sexComponent, travelComponent, hasHighRiskTravel]
  split_ifs <;> omega

/-- Spec-side tier table: score ≥ 4 is HIGH RISK at confidence 0.85,
score in [2,4) is MODERATE RISK at 0.65, score < 2 is LOW RISK at 0.90,
each with its fixed recommendation string. -/
def specTier (s : Nat) : String × ℚ × String :=
  if 4 ≤ s then
    ("HIGH RISK", 0.85,
      "Immediate medical consultation recommended. Monitor for symptoms and avoid mosquito exposure.")
  else if 2 ≤ s ∧ s < 4 then
    ("MODERATE RISK", 0.65,
      "Schedule medical checkup. Use mosquito repellent and wear protective clothing.")
  else
    ("LOW RISK", 0.90,
      "Low probability of Zika infection. Maintain standard mosquito precautions.")

/-- The wait the loop performs after the attempt with 0-based index `idx`,
as a function of that attempt's outcome (`none` means: no sleep, because
the attempt succeeded or its error was rethrown). -/
def attemptWait (retries idx : Nat) : AttemptResult → Option Nat
  | .ok _ => none
  | .fail e =>
    if e.status = some 429 then
      some (match e.retryAfter with
            | some r => r * 1000
            | none => RETRY_DELAY * (idx + 1))
    else if idx = retries - 1 then none
    else some RETRY_DELAY

/-- The loop performs at most `fuel` attempts. -/
theorem retryLoop_length (oracle : Nat → AttemptResult) (retries : Nat) :
    ∀ fuel i, ((retryLoop oracle retries i fuel).2).length ≤ fuel := by
  intro fuel
  induction fuel with
  | zero => intro i; simp [retryLoop]
  | succ n ih =>
    intro i
    have hrec := ih (i + 1)
    rcases h : oracle i with data | e
    · simp [retryLoop, h]
    · by_cases h429 : e.status = some 429
      · simp only [retryLoop, h, if_pos h429, List.length_cons]
        omega
      · by_cases hlast : i = retries - 1
        · simp only [retryLoop, h, if_neg h429, if_pos hlast, List.length_singleton]
          omega
        · simp only [retryLoop, h, if_neg h429, if_neg hlast, List.length_cons]
          omega

/-- The `k`-th trace entry records the outcome of attempt `i + k` and the
wait prescribed for it by `attemptWait`. -/
theorem retryLoop_get? (oracle : Nat → AttemptResult) (retries : Nat) :
    ∀ fuel i k entry, ((retryLoop oracle retries i fuel).2).get? k = some entry →
      entry.outcome = oracle (i + k) ∧
      entry.waitAfter = attemptWait retries (i + k) (oracle (i + k)) := by
  intro fuel
  induction fuel with
  | zero => intro i k entry hE; simp [retryLoop] at hE
  | succ n ih =>
    intro i k entry hE
    rcases h : oracle i with data | e
    · simp only [retryLoop, h] at hE
      match k with
      | 0 =>
        simp only [List.get?] at hE
        cases hE
        simp only [Nat.add_zero]
        rw [h]
        simp [attemptWait]
      | k + 1 => simp [List.get?] at hE
    · by_cases h429 : e.status = some 429
      · simp only [retryLoop, h, if_pos h429] at hE
        match k with
        | 0 =>
          simp only [List.get?] at hE
          cases hE
          simp only [Nat.add_zero]
          rw [h]
          simp [attemptWait, if_pos h429]
        | k + 1 =>
          simp only [List.get?] at hE
          have := ih (i + 1) k entry hE
          have harith : i + 1 + k = i + (k + 1) := by omega
          rwa [harith] at this
      · by_cases hlast : i = retries - 1
        · simp only [retryLoop, h, if_neg h429, if_pos hlast] at hE
          match k with
          | 0 =>
            simp only [List.get?] at hE
            cases hE
            simp only [Nat.add_zero]
            rw [h]
            simp [attemptWait, if_neg h429, if_pos hlast]
          | k + 1 => simp [List.get?] at hE
        · simp only [retryLoop, h, if_neg h429, if_neg hlast] at hE
          match k with
          | 0 =>
            simp only [List.get?] at hE
            cases hE
            simp only [Nat.add_zero]
            rw [h]
            simp [attemptWait, if_neg h429, if_neg hlast]
          | k + 1 =>
            simp only [List.get?] at hE
            have := ih (i + 1) k entry hE
            have harith : i + 1 + k = i + (k + 1) := by omega
            rwa [harith] at this

/-- If every remaining attempt fails with a 429, the loop falls off the end
(`resolvedUndefined`), runs all `fuel` attempts, and sleeps after each of
them - including the last one. -/
theorem retryLoop_all429 (oracle : Nat → AttemptResult) (retries : Nat) :
    ∀ fuel i,
      (∀ j, i ≤ j → j < i + fuel → ∃ e, oracle j = .fail e ∧ e.status = some 429) →
      (retryLoop oracle retries i fuel).1 = .resolvedUndefined ∧
      ((retryLoop oracle retries i fuel).2).length = fuel ∧
      ∀ entry ∈ (retryLoop oracle retries i fuel).2, entry.waitAfter.isSome = true := by
  intro fuel
  induction fuel with
  | zero => intro i hall; simp [retryLoop]
  | succ n ih =>
    intro i hall
    obtain ⟨e, he, he429⟩ := hall i (Nat.le_refl i) (by omega)
    have hrest := ih (i + 1) (fun j hj1 hj2 => hall j (by omega) (by omega))
    simp only [retryLoop, he, if_pos he429, List.length_cons, List.mem_cons]
    refine ⟨hrest.1, by rw [hrest.2.1], ?_⟩
    rintro entry (rfl | hmem)
    · rfl
    · exact hrest.2.2 entry hmem

/-- If every remaining attempt fails with a non-429 error and the fuel
exactly reaches the last attempt, the loop rethrows the last attempt's
error. -/
theorem retryLoop_allFailNon429 (oracle : Nat → AttemptResult) (retries : Nat) :
    ∀ fuel i, i + fuel = retries → 0 < fuel →
      (∀ j, i ≤ j → j < retries → ∃ e, oracle j = .fail e ∧ ¬ e.status = some 429) →
      ∃ e, oracle (retries - 1) = .fail e ∧ ¬ e.status = some 429 ∧
        (retryLoop oracle retries i fuel).1 = .thrown e := by
  intro fuel
  induction fuel with
  | zero => intro i hif hpos; omega
  | succ n ih =>
    intro i hif hpos hall
    obtain ⟨e, he, he429⟩ := hall i (Nat.le_refl i) (by omega)
    by_cases hn : n = 0
    · subst hn
      have hlast : i = retries - 1 := by omega
      refine ⟨e, by rw [← hlast]; exact he, he429, ?_⟩
      simp [retryLoop, he, if_neg he429, if_pos hlast]
    · have hnotlast : ¬ i = retries - 1 := by omega
      obtain ⟨e', he', he'429, hres⟩ :=
        ih (i + 1) (by omega) (by omega) (fun j hj1 hj2 => hall j (by omega) hj2)
      refine ⟨e', he', he'429, ?_⟩
      simp only [retryLoop, he, if_neg he429, if_neg hnotlast]
      exact hres

/-! ## Concrete fixtures used by the witnesses and counterexamples -/

/-- A database environment in which every persistence call succeeds. -/
def envAllOk : DbEnv :=
  { findPatient := fun _ => .ok none
    savePatient := fun _ => .ok ()
    saveRecord := fun _ => .ok () }

/-- A database environment whose clinical-record save throws. -/
def envRecordSaveFails : DbEnv :=
  { findPatient := fun _ => .ok none
    savePatient := fun _ => .ok ()
    saveRecord := fun _ => .error "db down" }

/-- A well-formed request: age 55, sex F, travel history "trip to Brazil". -/
def reqBrazil : PredictRequest :=
  { patientId := none, age := some 55, sex := some "F"
    travel_history := some "trip to Brazil", userId := "user-1" }

/-- A request with a present but negative (out-of-range) age. -/
def reqNegativeAge : PredictRequest :=
  { patientId := none, age := some (-5), sex := some "M"
    travel_history := none, userId := "user-1" }

/-- A request with the age field missing. -/
def reqMissingAge : PredictRequest :=
  { patientId := none, age := none, sex := some "M"
    travel_history := none, userId := "user-1" }

/-- A 429 error carrying a Cloudflare HTML challenge body, no retry-after. -/
def err429Html : JsError :=
  { status := some 429, retryAfter := none, bodyIsHtml := true, code := none }

/-- A 429 error with a `retry-after: 5` header. -/
def err429Retry5 : JsError :=
  { status := some 429, retryAfter := some 5, bodyIsHtml := false, code := none }

/-- A timeout error: no HTTP response at all, `code = ECONNABORTED`. -/
def errTimeout : JsError :=
  { status := none, retryAfter := none, bodyIsHtml := false, code := some "ECONNABORTED" }

/-- A remote service that always answers 429 with an HTML challenge. -/
def oracle429Html : Nat → AttemptResult := fun _ => .fail err429Html

/-- A remote service that always answers 429 with `retry-after: 5`. -/
def oracle429Retry5 : Nat → AttemptResult := fun _ => .fail err429Retry5

/-- A remote service on which every attempt times out. -/
def oracleTimeout : Nat → AttemptResult := fun _ => .fail errTimeout

/-- A record-save payload used to exhibit a persistence failure. -/
def recordDataSample : RecordData :=
  { patientId := none, age := 55, sex := "F"
    travel_history := some "trip to Brazil"
    prediction := .structured (generateLocalPrediction 55 "F" (some "trip to Brazil"))
    isFallback := true }

/-! ## The claims -/

/-- C1: the claim says that when every attempt fails with HTTP 429 and an
HTML body, the handler returns 429 with `error = rate_limit_cloudflare` and
`retryAfter = 60`. The code contradicts this intended behaviour (the
Cloudflare branch of the handler is unreachable): on a 429 the retry loop
always `continue`s, so 429 exhaustion makes `makeRequestWithRetry` resolve
to `undefined` rather than throw, the handler's catch block is skipped, and
its dereference of the undefined result raises a `TypeError` that the outer
catch maps to a generic 500 "Failed to process prediction" response. -/
theorem c1_cloudflare_evaluates_to_500 :
    (makeRequestWithRetry oracle429Html MAX_RETRIES).1 = .resolvedUndefined ∧
    (predictHandler reqBrazil oracle429Html envAllOk).1 =
      { status := 500
        success := false
        message := "Failed to process prediction"
        errorTag := none, retryAfter := none, ai_prediction := none
        fallback := none, note := none, patientEcho := none } :=
  ⟨rfl, rfl⟩

/-- C2: `makeRequestWithRetry` makes at most `MAX_RETRIES = 3` attempts;
after a 429 it sleeps `retry-after * 1000` ms when the header is present
and `RETRY_DELAY * (attempt index + 1)` ms otherwise, then retries; after
any other non-final failure it sleeps the fixed `RETRY_DELAY`; the error of
the final non-429 failure is rethrown with no further attempt. -/
theorem c2_retry_schedule (oracle : Nat → AttemptResult) :
    (makeRequestWithRetry oracle MAX_RETRIES).2.length ≤ MAX_RETRIES ∧
    ∀ k entry, ((makeRequestWithRetry oracle MAX_RETRIES).2).get? k = some entry →
      entry.outcome = oracle k ∧
      (∀ e r, oracle k = .fail e → e.status = some 429 → e.retryAfter = some r →
        entry.waitAfter = some (r * 1000)) ∧
      (∀ e, oracle k = .fail e → e.status = some 429 → e.retryAfter = none →
        entry.waitAfter = some (RETRY_DELAY * (k + 1))) ∧
      (∀ e, oracle k = .fail e → ¬ e.status = some 429 → k < MAX_RETRIES - 1 →
        entry.waitAfter = some RETRY_DELAY) ∧
      (∀ e, oracle k = .fail e → ¬ e.status = some 429 → k = MAX_RETRIES - 1 →
        entry.waitAfter = none) := by
  constructor
  · exact retryLoop_length oracle MAX_RETRIES MAX_RETRIES 0
  · intro k entry hE
    obtain ⟨ho, hw⟩ := retryLoop_get? oracle MAX_RETRIES MAX_RETRIES 0 k entry hE
    simp only [Nat.zero_add] at ho hw
    refine ⟨ho, ?_, ?_, ?_, ?_⟩
    · intro e r he h429 hra
      rw [hw, he]
      simp [attemptWait, if_pos h429, hra]
    · intro e he h429 hra
      rw [hw, he]
      simp [attemptWait, if_pos h429, hra]
    · intro e he h429 hlt
      have hne : ¬ k = MAX_RETRIES - 1 := by
        simp only [MAX_RETRIES] at hlt ⊢
        omega
      rw [hw, he]
      simp [attemptWait, if_neg h429, if_neg hne]
    · intro e he h429 heq
      rw [hw, he]
      simp [attemptWait, if_neg h429, if_pos heq]

/-- Witness for C2 at a concrete 429-with-header oracle: the first attempt's
recorded wait is the server hint times 1000. -/
theorem c2_retry_schedule_witness :
    ({ outcome := .fail err429Retry5, waitAfter := some 5000 } : AttemptTrace).waitAfter
      = some (5 * 1000) :=
  ((c2_retry_schedule oracle429Retry5).2 0
      { outcome := .fail err429Retry5, waitAfter := some 5000 } rfl).2.1
    err429Retry5 5 rfl rfl rfl

/-- C3: if every attempt fails with a non-429 error (for example a timeout),
the handler answers 200 with `fallback = true` and an `ai_prediction` equal
to `generateLocalPrediction(age, sex, travel_history)`, computed purely
from the request's own fields. -/
theorem c3_fallback_on_non429_exhaustion (req : PredictRequest)
    (oracle : Nat → AttemptResult) (env : DbEnv)
    (hage : jsFalsyInt req.age = false) (hsex : jsFalsyStr req.sex = false)
    (hfail : ∀ j, j < MAX_RETRIES → ∃ e, oracle j = .fail e ∧ ¬ e.status = some 429) :
    (predictHandler req oracle env).1.status = 200 ∧
    (predictHandler req oracle env).1.success = true ∧
    (predictHandler req oracle env).1.fallback = some true ∧
    (predictHandler req oracle env).1.ai_prediction =
      some (.structured
        (generateLocalPrediction (req.age.getD 0) (req.sex.getD "") req.travel_history)) := by
  obtain ⟨e, he, he429, hres⟩ :=
    retryLoop_allFailNon429 oracle MAX_RETRIES MAX_RETRIES 0 (by omega) (by decide)
      (fun j hj1 hj2 => hfail j hj2)
  simp only [predictHandler, hage, hsex, Bool.or_self, Bool.false_eq_true, if_false,
    makeRequestWithRetry, hres]
  rw [if_neg (fun hc => he429 hc.1)]
  simp

/-- Witness for C3: always-timeout oracle, Brazil request, healthy store. -/
theorem c3_fallback_on_non429_exhaustion_witness :
    (predictHandler reqBrazil oracleTimeout envAllOk).1.status = 200 ∧
    (predictHandler reqBrazil oracleTimeout envAllOk).1.success = true ∧
    (predictHandler reqBrazil oracleTimeout envAllOk).1.fallback = some true ∧
    (predictHandler reqBrazil oracleTimeout envAllOk).1.ai_prediction =
      some (.structured
        (generateLocalPrediction (reqBrazil.age.getD 0) (reqBrazil.sex.getD "")
          reqBrazil.travel_history)) :=
  c3_fallback_on_non429_exhaustion reqBrazil oracleTimeout envAllOk rfl rfl
    (fun _ _ => ⟨errTimeout, rfl, by decide⟩)

/-- C4: when every attempt fails with a 429, `makeRequestWithRetry` neither
throws nor returns a response: it sleeps after each of the three attempts -
the last one included - and then resolves to `undefined`; the handler then
dereferences the undefined result, so the caller sees the generic 500, not
a 429 error object. -/
theorem c4_429_exhaustion_resolves_undefined (req : PredictRequest)
    (oracle : Nat → AttemptResult) (env : DbEnv)
    (hage : jsFalsyInt req.age = false) (hsex : jsFalsyStr req.sex = false)
    (hall : ∀ j, j < MAX_RETRIES → ∃ e, oracle j = .fail e ∧ e.status = some 429) :
    (makeRequestWithRetry oracle MAX_RETRIES).1 = .resolvedUndefined ∧
    (makeRequestWithRetry oracle MAX_RETRIES).2.length = MAX_RETRIES ∧
    (∀ entry ∈ (makeRequestWithRetry oracle MAX_RETRIES).2, entry.waitAfter.isSome = true) ∧
    (predictHandler req oracle env).1.status = 500 ∧
    (predictHandler req oracle env).1.success = false ∧
    (predictHandler req oracle env).1.errorTag = none := by
  obtain ⟨hres, hlen, hwaits⟩ :=
    retryLoop_all429 oracle MAX_RETRIES MAX_RETRIES 0 (fun j hj1 hj2 => hall j (by omega))
  have hmk : (makeRequestWithRetry oracle MAX_RETRIES).1 = .resolvedUndefined := hres
  refine ⟨hmk, hlen, hwaits, ?_⟩
  simp only [predictHandler, hage, hsex, Bool.or_self, Bool.false_eq_true, if_false,
    makeRequestWithRetry, hres]
  simp

/-- Witness for C4: always 429-with-HTML oracle, Brazil request. -/
theorem c4_429_exhaustion_resolves_undefined_witness :
    (makeRequestWithRetry oracle429Html MAX_RETRIES).1 = .resolvedUndefined ∧
    (makeRequestWithRetry oracle429Html MAX_RETRIES).2.length = MAX_RETRIES ∧
    (predictHandler reqBrazil oracle429Html envAllOk).1.status = 500 :=
  have h := c4_429_exhaustion_resolves_undefined reqBrazil oracle429Html envAllOk rfl rfl
    (fun _ _ => ⟨err429Html, rfl, rfl⟩)
  ⟨h.1, h.2.1, h.2.2.2.1⟩

/-- C5: for every input, the fallback scorer returns exactly one of the
three risk tiers, and the tier, confidence and recommendation are the ones
the tier table (`specTier`) prescribes for its computed risk score:
score ≥ 4 gives HIGH RISK at 0.85, score in [2,4) gives MODERATE RISK at
0.65, score < 2 gives LOW RISK at 0.90. -/
theorem c5_three_tiers (age : Int) (sex : String) (th : Option String) :
    ((generateLocalPrediction age sex th).risk_level = "HIGH RISK" ∨
     (generateLocalPrediction age sex th).risk_level = "MODERATE RISK" ∨
     (generateLocalPrediction age sex th).risk_level = "LOW RISK") ∧
    ((generateLocalPrediction age sex th).risk_level,
     (generateLocalPrediction age sex th).confidence,
     (generateLocalPrediction age sex th).recommendation)
      = specTier (riskScore age sex th) := by
  have htri : 4 ≤ riskScore age sex th ∨
      (2 ≤ riskScore age sex th ∧ riskScore age sex th < 4) ∨
      riskScore age sex th < 2 := by omega
  rcases htri with h | ⟨hl, hr⟩ | h
  · have e1 : riskScore age sex th ≥ 4 := h
    simp only [generateLocalPrediction, specTier, if_pos e1, if_pos h]
    simp
  · have e1 : ¬ riskScore age sex th ≥ 4 := by omega
    have e2 : riskScore age sex th ≥ 2 := hl
    have e3 : ¬ 4 ≤ riskScore age sex th := by omega
    have e4 : 2 ≤ riskScore age sex th ∧ riskScore age sex th < 4 := ⟨hl, hr⟩
    simp only [generateLocalPrediction, specTier, if_neg e1, if_pos e2, if_neg e3, if_pos e4]
    simp
  · have e1 : ¬ riskScore age sex th ≥ 4 := by omega
    have e2 : ¬ riskScore age sex th ≥ 2 := by omega
    have e3 : ¬ 4 ≤ riskScore age sex th := by omega
    have e4 : ¬ (2 ≤ riskScore age sex th ∧ riskScore age sex th < 4) := by omega
    simp only [generateLocalPrediction, specTier, if_neg e1, if_neg e2, if_neg e3, if_neg e4]
    simp

/-- C6: the fallback risk score is the sum of three independent
contributions - age (> 50 gives +2, in (30,50] gives +1), sex
(case-insensitive F gives +1) and travel history (a high-risk region
keyword gives +3, otherwise a travel/abroad keyword gives +1). -/
theorem c6_score_is_sum_of_components (age : Int) (sex : String) (th : Option String) :
    riskScore age sex th = ageComponent age + sexComponent sex + travelComponent th :=
  riskScore_eq_components age sex th

/-- C7: whenever the travel-history string contains one of the configured
high-risk region names (case-insensitively), the travel component of the
score is exactly 3, so the score exceeds the age and sex contributions by
exactly 3, regardless of any other keyword in the string. -/
theorem c7_high_risk_region_adds_three (age : Int) (sex : String) (th : Option String)
    (h : hasHighRiskTravel th = true) :
    travelComponent th = 3 ∧
    riskScore age sex th = ageComponent age + sexComponent sex + 3 := by
  have ht : travelComponent th = 3 := by
    simp [travelComponent, h]
  exact ⟨ht, by rw [riskScore_eq_components, ht]⟩

/-- Witness for C7: "trip to Brazil" contains the keyword `brazil`. -/
theorem c7_high_risk_region_adds_three_witness :
    travelComponent (some "trip to Brazil") = 3 ∧
    riskScore 55 "F" (some "trip to Brazil")
      = ageComponent 55 + sexComponent "F" + 3 :=
  c7_high_risk_region_adds_three 55 "F" (some "trip to Brazil") rfl

/-- C8: on age 55, sex F, travel history "trip to Brazil" the fallback
scorer computes risk score 6 = 2 (age > 50) + 1 (female) + 3 (high-risk
region) and returns HIGH RISK with confidence 0.85. -/
theorem c8_brazil_example :
    ageComponent 55 = 2 ∧
    sexComponent "F" = 1 ∧
    travelComponent (some "trip to Brazil") = 3 ∧
    riskScore 55 "F" (some "trip to Brazil") = 6 ∧
    (generateLocalPrediction 55 "F" (some "trip to Brazil")).risk_level = "HIGH RISK" ∧
    (generateLocalPrediction 55 "F" (some "trip to Brazil")).confidence = 0.85 :=
  ⟨rfl, rfl, rfl, rfl, rfl, rfl⟩

/-- C9: a failure inside `savePredictionRecord` is caught there - the
function resolves to `undefined` instead of rethrowing - so the HTTP
response of the handler is the same whatever the persistence layer does. -/
theorem c9_persistence_failure_swallowed (req : PredictRequest)
    (oracle : Nat → AttemptResult) (env env' : DbEnv) (uid : String)
    (d : RecordData) (msg : String)
    (h : savePredictionRecordTry env uid d = .error msg) :
    savePredictionRecord env uid d = none ∧
    predictHandler req oracle env = predictHandler req oracle env' := by
  refine ⟨?_, rfl⟩
  simp [savePredictionRecord, h]

/-- Witness for C9: a store whose record-save throws yields the same
response as a healthy store. -/
theorem c9_persistence_failure_swallowed_witness :
    savePredictionRecord envRecordSaveFails "user-1" recordDataSample = none ∧
    predictHandler reqBrazil oracleTimeout envRecordSaveFails
      = predictHandler reqBrazil oracleTimeout envAllOk :=
  c9_persistence_failure_swallowed reqBrazil oracleTimeout envRecordSaveFails envAllOk
    "user-1" recordDataSample "db down" rfl

/-- C10 counterexample: the claim asserts that a request whose age is out
of range is rejected with 400 before any remote call, but the handler only
checks JavaScript falsiness of `age` and `sex`. A present but negative age
(`-5`, out of any valid age range) passes validation: the handler attempts
the remote call (the attempt trace is non-empty) and answers 200 via the
fallback instead of 400. -/
theorem c10_counterexample_negative_age :
    (-5 : Int) < 0 ∧
    reqNegativeAge.age = some (-5) ∧
    (predictHandler reqNegativeAge oracleTimeout envAllOk).1.status = 200 ∧
    ¬ (predictHandler reqNegativeAge oracleTimeout envAllOk).1.status = 400 ∧
    ¬ (predictHandler reqNegativeAge oracleTimeout envAllOk).2 = [] := by
  refine ⟨by norm_num, rfl, rfl, ?_, ?_⟩
  · intro hc
    simp only [show (predictHandler reqNegativeAge oracleTimeout envAllOk).1.status = 200
      from rfl] at hc
    omega
  · intro hc
    have : (predictHandler reqNegativeAge oracleTimeout envAllOk).2.length = 3 := rfl
    rw [hc] at this
    simp at this

/-- C10 (amended): the handler returns 400 with `success = false` before
any remote call exactly when `age` or `sex` is missing or otherwise falsy
(`0`, empty string); no range validation is performed. -/
theorem c10_falsy_validation_rejects (req : PredictRequest)
    (oracle : Nat → AttemptResult) (env : DbEnv)
    (h : jsFalsyInt req.age = true ∨ jsFalsyStr req.sex = true) :
    (predictHandler req oracle env).1.status = 400 ∧
    (predictHandler req oracle env).1.success = false ∧
    (predictHandler req oracle env).1.message = "Age and sex are required fields" ∧
    (predictHandler req oracle env).2 = [] := by
  have hcond : (jsFalsyInt req.age || jsFalsyStr req.sex) = true := by
    rcases h with h | h <;> simp [h]
  simp [predictHandler, hcond]

/-- Witness for C10 (amended): a request with no age field is rejected with
400 and no remote attempt. -/
theorem c10_falsy_validation_rejects_witness :
    (predictHandler reqMissingAge oracleTimeout envAllOk).1.status = 400 ∧
    (predictHandler reqMissingAge oracleTimeout envAllOk).1.success = false ∧
    (predictHandler reqMissingAge oracleTimeout envAllOk).1.message
      = "Age and sex are required fields" ∧
    (predictHandler reqMissingAge oracleTimeout envAllOk).2 = [] :=
  c10_falsy_validation_rejects reqMissingAge oracleTimeout envAllOk (Or.inl rfl)

end ZikaBackend
